import Mathlib

/-!
Verification of `src/check_add_tag.py` (AWS tag reconciliation script).

The script walks profiles → services → resources and, for each resource,
reads its tags from the Resource Groups Tagging API, computes which keys of
`REQUIRED_TAGS` are absent, and issues a single `tag_resources` write with
exactly those missing entries.  Remote calls are modelled as an abstract
`TagClient` record of `Except`-valued functions; every `try/except` block of
the script becomes an explicit `match` on the `Except` result.
-/

namespace CheckAddTag

/-- A single tag entry of a `ResourceTagMappingList` item, i.e. the dict
`{"Key": ..., "Value": ...}`. -/
structure Tag where
  Key : String
  Value : String
deriving DecidableEq, Repr

/-- One item of a `ResourceTagMappingList`: the `ResourceARN` and the
(possibly absent) `Tags` list — `tag_mapping.get("Tags", [])` reads it with
a default. -/
structure ResourceTagMapping where
  ResourceARN : String
  Tags? : Option (List Tag)
deriving DecidableEq, Repr

/-- One page of the `get_resources` paginator: the (possibly absent)
`ResourceTagMappingList` — `page.get("ResourceTagMappingList", [])`. -/
structure Page where
  ResourceTagMappingList? : Option (List ResourceTagMapping)
deriving DecidableEq, Repr

/-- `REQUIRED_TAGS = {"Environment": "Production", "Owner": "CloudEng"}`,
as an insertion-ordered association list (Python dicts preserve insertion
order, so `.items()` iterates in this order). -/
def REQUIRED_TAGS : List (String × String) :=
  [("Environment", "Production"), ("Owner", "CloudEng")]

/-- `TAGGABLE_SERVICES` from the script. -/
def TAGGABLE_SERVICES : List String :=
  ["ec2", "s3", "rds", "lambda", "dynamodb", "sns", "sqs", "elb", "autoscaling",
   "cloudwatch", "redshift", "cloudfront", "eks", "ecr", "kinesis"]

/-- Python `key in d` on an association-list dict. -/
def containsKey (m : List (String × String)) (k : String) : Bool :=
  m.any (fun p => p.1 == k)

/-- Python `d[k]` lookup (as an `Option`) on an association-list dict. -/
def lookupKey (m : List (String × String)) (k : String) : Option String :=
  (m.find? (fun p => p.1 == k)).map (fun p => p.2)

/-- Python `d[k] = v` on an association-list dict: update in place when the
key exists (keeping insertion order), otherwise append. -/
def insertKV (m : List (String × String)) (k v : String) : List (String × String) :=
  if containsKey m k then
    m.map (fun p => if p.1 == k then (k, v) else p)
  else
    m ++ [(k, v)]

/-- The loop `for tag in tag_mapping.get("Tags", []): existing_tags[tag["Key"]] = tag["Value"]`. -/
def addTagMapping (m : List (String × String)) (tm : ResourceTagMapping) :
    List (String × String) :=
  (tm.Tags?.getD []).foldl (fun acc t => insertKV acc t.Key t.Value) m

/-- Building `existing_tags` from the `get_resources` response:
`{}` when the response has no `"ResourceTagMappingList"` key, otherwise the
nested loop over tag mappings and their tags. -/
def buildExistingTags (resp : Option (List ResourceTagMapping)) :
    List (String × String) :=
  match resp with
  | none => []
  | some l => l.foldl addTagMapping []

/-- The `missing_tags` list comprehension:
`[{"Key": k, "Value": v} for k, v in REQUIRED_TAGS.items() if k not in existing_tags]`
(represented as key/value pairs). -/
def missing_tags (existing_tags : List (String × String)) : List (String × String) :=
  REQUIRED_TAGS.filter (fun kv => !(containsKey existing_tags kv.1))

/-- The dict comprehension `{t["Key"]: t["Value"] for t in missing_tags}`
passed as the `Tags` argument of `tag_resources`. -/
def dictOfPairs (l : List (String × String)) : List (String × String) :=
  l.foldl (fun m p => insertKV m p.1 p.2) []

/-- The remote tagging client (`session.client("resourcegroupstaggingapi")`).
Each field is one API call the script makes; `Except.error` models the call
raising an exception.  The paginator call `paginate(ResourcesPerPage=50)`
receives no service argument in the script, so the model gives it none. -/
structure TagClient where
  paginate_get_resources : Except String (List Page)
  get_resources_arn : String → Except String (Option (List ResourceTagMapping))
  tag_resources : String → List (String × String) → Except String Unit

/-- What `check_and_add_tags` reports on its success path. -/
inductive Outcome
  | added (tags : List (String × String))
  | alreadyTagged
deriving DecidableEq, Repr

/-- Result of a call to `check_and_add_tags`: either the success-path outcome
or the caught-and-logged exception of its `except` clause. -/
inductive LoggedOutcome
  | ok (o : Outcome)
  | errorLogged (e : String)
deriving DecidableEq, Repr

/-- A `tag_resources` write call: the resource ARN and the `Tags` mapping. -/
abbrev WriteCall := String × List (String × String)

/-- `check_and_add_tags(client, resource_arn)`, instrumented with the list of
`tag_resources` write calls it issues.  The outer `try/except Exception`
appears as the `.error` branches producing `errorLogged`; a write call is
recorded whenever `tag_resources` is invoked, whether or not it raises. -/
def check_and_add_tags_run (client : TagClient) (resource_arn : String) :
    LoggedOutcome × List WriteCall :=
  match client.get_resources_arn resource_arn with
  | .error e => (.errorLogged e, [])
  | .ok resp =>
    let existing_tags := buildExistingTags resp
    let missing := missing_tags existing_tags
    if missing.isEmpty then
      (.ok .alreadyTagged, [])
    else
      match client.tag_resources resource_arn (dictOfPairs missing) with
      | .ok _ => (.ok (.added missing), [(resource_arn, dictOfPairs missing)])
      | .error e => (.errorLogged e, [(resource_arn, dictOfPairs missing)])

/-- `get_resources_with_tags(client, service_name)`: paginate `get_resources`
and concatenate each page's `ResourceTagMappingList`; on any exception, log
and return `[]`.  The `service_name` parameter is used by the script only in
the error log message, never in the API request. -/
def get_resources_with_tags (client : TagClient) (service_name : String) :
    List ResourceTagMapping :=
  match client.paginate_get_resources with
  | .ok pages =>
      pages.foldl (fun resources page =>
        resources ++ page.ResourceTagMappingList?.getD []) []
  | .error _ => []

/-- The inner resource loop of `process_aws_profile`:
`for resource in resources: check_and_add_tags(tag_client, resource["ResourceARN"])`. -/
def process_service_resources (client : TagClient)
    (resources : List ResourceTagMapping) : List (LoggedOutcome × List WriteCall) :=
  resources.map (fun resource => check_and_add_tags_run client resource.ResourceARN)

/-- The service loop of `process_aws_profile`: for each service of
`TAGGABLE_SERVICES`, list its resources and reconcile each one. -/
def process_profile_services (client : TagClient) :
    List (String × List (LoggedOutcome × List WriteCall)) :=
  TAGGABLE_SERVICES.map (fun service =>
    (service, process_service_resources client (get_resources_with_tags client service)))

/-- Exceptions `boto3.Session(profile_name=...)`/`session.client(...)` can
raise: `ProfileNotFound`, `NoCredentialsError`, or anything else. -/
inductive SessionError
  | profileNotFound
  | noCredentials
  | other (msg : String)
deriving DecidableEq, Repr

/-- The local environment: resolving a profile name to a tagging client
(`boto3.Session(profile_name=p).client("resourcegroupstaggingapi")`). -/
structure Env where
  getClient : String → Except SessionError TagClient

/-- Result of `process_aws_profile`: either the per-service results, or one
of its three caught-and-logged exception cases. -/
inductive ProfileOutcome
  | processed (results : List (String × List (LoggedOutcome × List WriteCall)))
  | profileNotFoundLogged
  | noCredentialsLogged
  | unexpectedErrorLogged (msg : String)
deriving Repr

/-- `process_aws_profile(profile_name)`: its `try` body with the three
`except` clauses as the `.error` branches. -/
def process_aws_profile (env : Env) (profile_name : String) : ProfileOutcome :=
  match env.getClient profile_name with
  | .ok client => .processed (process_profile_services client)
  | .error .profileNotFound => .profileNotFoundLogged
  | .error .noCredentials => .noCredentialsLogged
  | .error (.other e) => .unexpectedErrorLogged e

/-- Result of the `__main__` block. -/
inductive MainResult
  | noProfilesFound
  | ran (outcomes : List ProfileOutcome)
deriving Repr

/-- The `__main__` block, given the profile list returned by
`get_aws_profiles()`: warn when empty, otherwise process each profile. -/
def main_run (env : Env) (profiles : List String) : MainResult :=
  if profiles.isEmpty then .noProfilesFound
  else .ran (profiles.map (fun profile => process_aws_profile env profile))

/-- The effect of a `tag_resources` write on the provider's tag mapping
(modelled from the spec's description of the remote tag-write endpoint:
"apply a mapping of key→value to a given resource identifier"). -/
def applyWrite (m : List (String × String)) (w : List (String × String)) :
    List (String × String) :=
  w.foldl (fun acc p => insertKV acc p.1 p.2) m

/-- The resource's resulting tag mapping after the issued write calls. -/
def finalTags (existing : List (String × String)) (writes : List WriteCall) :
    List (String × String) :=
  writes.foldl (fun m wc => applyWrite m wc.2) existing

/-! ### Concrete clients and inputs used by the witness theorems -/

def respC1 : Option (List ResourceTagMapping) :=
  some [{ ResourceARN := "arn:demo:r1",
          Tags? := some [{ Key := "Environment", Value := "Production" }] }]

def clientC1 : TagClient :=
  { paginate_get_resources := Except.ok []
    get_resources_arn := fun _ => Except.ok respC1
    tag_resources := fun _ _ => Except.ok () }

def respC2 : Option (List ResourceTagMapping) :=
  some [{ ResourceARN := "arn:demo:r2",
          Tags? := some [{ Key := "Environment", Value := "Production" },
                         { Key := "Owner", Value := "CloudEng" }] }]

def clientC2 : TagClient :=
  { paginate_get_resources := Except.ok []
    get_resources_arn := fun _ => Except.ok respC2
    tag_resources := fun _ _ => Except.ok () }

def respC3 : Option (List ResourceTagMapping) :=
  some [{ ResourceARN := "arn:demo:r3",
          Tags? := some [{ Key := "Environment", Value := "Staging" }] }]

def clientC3 : TagClient :=
  { paginate_get_resources := Except.ok []
    get_resources_arn := fun _ => Except.ok respC3
    tag_resources := fun _ _ => Except.ok () }

def respC10 : Option (List ResourceTagMapping) :=
  some [{ ResourceARN := "arn:demo:r10",
          Tags? := some [{ Key := "Environment", Value := "Production" },
                         { Key := "Owner", Value := "CloudEng" }] }]

def clientC10 : TagClient :=
  { paginate_get_resources := Except.ok []
    get_resources_arn := fun _ => Except.ok respC10
    tag_resources := fun _ _ => Except.ok () }

def pageC4 : Page :=
  { ResourceTagMappingList? := some
      [{ ResourceARN := "arn:aws:ec2:us-east-1:123456789012:instance/i-0abc", Tags? := some [] },
       { ResourceARN := "arn:aws:s3:::demo-bucket", Tags? := some [] }] }

def clientC4 : TagClient :=
  { paginate_get_resources := Except.ok [pageC4]
    get_resources_arn := fun _ => Except.ok none
    tag_resources := fun _ _ => Except.ok () }

def clientC5 : TagClient :=
  { paginate_get_resources := Except.ok []
    get_resources_arn := fun a =>
      if a == "arn:demo:bad" then Except.error "AccessDenied" else Except.ok (some [])
    tag_resources := fun _ _ => Except.ok () }

def resourcesC5 : List ResourceTagMapping :=
  [{ ResourceARN := "arn:demo:bad", Tags? := none },
   { ResourceARN := "arn:demo:good", Tags? := none }]

def clientC6 : TagClient :=
  { paginate_get_resources := Except.error "Throttling"
    get_resources_arn := fun _ => Except.ok none
    tag_resources := fun _ _ => Except.ok () }

/-- The logged outcome `process_aws_profile` produces for each of its three
`except` clauses. -/
def loggedOutcomeOfSessionError : SessionError → ProfileOutcome
  | .profileNotFound => .profileNotFoundLogged
  | .noCredentials => .noCredentialsLogged
  | .other m => .unexpectedErrorLogged m

def clientC7 : TagClient :=
  { paginate_get_resources := Except.ok []
    get_resources_arn := fun _ => Except.ok none
    tag_resources := fun _ _ => Except.ok () }

def envC7 : Env :=
  { getClient := fun p =>
      if p == "dev" then Except.error SessionError.profileNotFound
      else Except.ok clientC7 }

def profilesC7 : List String := ["dev", "prod"]

/-! ### Helper lemmas about the association-list dict operations -/

theorem containsKey_insertKV (m : List (String × String)) (k' v k : String) :
    containsKey (insertKV m k' v) k = (containsKey m k || (k' == k)) := by
  unfold insertKV
  by_cases hc : containsKey m k' = true
  · simp only [hc, if_true]
    by_cases hk : k' = k
    · subst hk
      simp only [beq_self_eq_true, Bool.or_true]
      rw [containsKey, List.any_map]
      rw [containsKey, List.any_eq_true] at hc
      obtain ⟨p, hp, hpk⟩ := hc
      refine List.any_eq_true.2 ⟨p, hp, ?_⟩
      simp [Function.comp, hpk]
    · have hk2 : (k' == k) = false := beq_eq_false_iff_ne.2 hk
      simp only [hk2, Bool.or_false]
      rw [containsKey, List.any_map, containsKey]
      congr 1
      funext p
      by_cases hp : p.1 = k'
      · simp [Function.comp, hp, hk2, beq_eq_false_iff_ne.2 hk]
      · simp [Function.comp, beq_eq_false_iff_ne.2 hp]
  · simp only [Bool.not_eq_true] at hc
    rw [containsKey] at hc
    simp [hc, containsKey, List.any_append]

theorem containsKey_applyWrite (w m : List (String × String)) (k : String) :
    containsKey (applyWrite m w) k = (containsKey m k || containsKey w k) := by
  induction w generalizing m with
  | nil => simp [applyWrite, containsKey]
  | cons p w ih =>
    rw [applyWrite, List.foldl_cons, ← applyWrite, ih, containsKey_insertKV]
    simp [containsKey, List.any_cons, Bool.or_assoc]

theorem containsKey_dictOfPairs (l : List (String × String)) (k : String) :
    containsKey (dictOfPairs l) k = containsKey l k := by
  have h : dictOfPairs l = applyWrite [] l := rfl
  rw [h, containsKey_applyWrite]
  simp [containsKey]

theorem lookupKey_map_update_ne (m : List (String × String)) (k' v k : String)
    (h : (k' == k) = false) :
    lookupKey (m.map (fun p => if p.1 == k' then (k', v) else p)) k = lookupKey m k := by
  induction m with
  | nil => rfl
  | cons p t ih =>
    simp only [lookupKey] at ih ⊢
    simp only [List.map_cons]
    by_cases hp : (p.1 == k') = true
    · rw [if_pos hp]
      have hpe : p.1 = k' := eq_of_beq hp
      simp only [List.find?_cons, hpe, h]
      exact ih
    · rw [if_neg hp]
      simp only [List.find?_cons]
      by_cases hk : (p.1 == k) = true
      · simp [hk]
      · simp only [Bool.not_eq_true] at hk
        simp only [hk]
        exact ih

theorem lookupKey_insertKV_ne (m : List (String × String)) (k' v k : String)
    (h : k' ≠ k) :
    lookupKey (insertKV m k' v) k = lookupKey m k := by
  have hb : (k' == k) = false := beq_eq_false_iff_ne.2 h
  unfold insertKV
  by_cases hc : containsKey m k' = true
  · simp only [hc, if_true]
    exact lookupKey_map_update_ne m k' v k hb
  · simp only [Bool.not_eq_true] at hc
    rw [if_neg (by simp [hc])]
    simp only [lookupKey]
    rw [List.find?_append]
    have hnone : List.find? (fun p => p.1 == k) [(k', v)] = none := by
      simp [List.find?, hb]
    rw [hnone, Option.or_none]

theorem lookupKey_applyWrite_ne (w m : List (String × String)) (k : String)
    (h : ∀ p ∈ w, p.1 ≠ k) :
    lookupKey (applyWrite m w) k = lookupKey m k := by
  induction w generalizing m with
  | nil => rfl
  | cons p w ih =>
    rw [applyWrite, List.foldl_cons, ← applyWrite]
    rw [ih _ (fun q hq => h q (List.mem_cons_of_mem p hq))]
    exact lookupKey_insertKV_ne m p.1 p.2 k (h p (List.mem_cons_self p w))

theorem mem_missing_tags (E : List (String × String)) (p : String × String) :
    p ∈ missing_tags E ↔ (p ∈ REQUIRED_TAGS ∧ containsKey E p.1 = false) := by
  rw [missing_tags, List.mem_filter]
  simp

theorem dictOfPairs_missing_tags (E : List (String × String)) :
    dictOfPairs (missing_tags E) = missing_tags E := by
  rw [missing_tags, REQUIRED_TAGS]
  by_cases h1 : containsKey E "Environment" = true <;>
    by_cases h2 : containsKey E "Owner" = true <;>
      simp only [List.filter, h1, h2, Bool.not_true, Bool.not_false] <;> rfl

theorem missing_tags_eq_nil_iff (E : List (String × String)) :
    missing_tags E = [] ↔ (∀ kv ∈ REQUIRED_TAGS, containsKey E kv.1 = true) := by
  rw [missing_tags, List.filter_eq_nil_iff]
  simp

theorem containsKey_of_mem (l : List (String × String)) (p : String × String)
    (h : p ∈ l) : containsKey l p.1 = true :=
  List.any_eq_true.2 ⟨p, h, beq_self_eq_true p.1⟩

theorem mem_keys_missing_tags (E : List (String × String)) (k : String)
    (h : containsKey (missing_tags E) k = true) : containsKey E k = false := by
  rw [containsKey, List.any_eq_true] at h
  obtain ⟨p, hp, hpk⟩ := h
  have hm := (mem_missing_tags E p).1 hp
  rw [← eq_of_beq hpk]
  exact hm.2

/-! ### Characterising the write-call trace of `check_and_add_tags` -/

theorem run_writes_of_missing (client : TagClient) (arn : String)
    (resp : Option (List ResourceTagMapping))
    (hread : client.get_resources_arn arn = Except.ok resp)
    (hne : missing_tags (buildExistingTags resp) ≠ []) :
    (check_and_add_tags_run client arn).2 =
      [(arn, dictOfPairs (missing_tags (buildExistingTags resp)))] := by
  unfold check_and_add_tags_run
  rw [hread]
  simp only [List.isEmpty_eq_false.2 hne, Bool.false_eq_true, if_false]
  cases client.tag_resources arn (dictOfPairs (missing_tags (buildExistingTags resp))) <;> rfl

theorem run_writes_cases (client : TagClient) (arn : String)
    (resp : Option (List ResourceTagMapping))
    (hread : client.get_resources_arn arn = Except.ok resp) :
    (check_and_add_tags_run client arn).2 = [] ∨
    (check_and_add_tags_run client arn).2 =
      [(arn, dictOfPairs (missing_tags (buildExistingTags resp)))] := by
  by_cases hnil : missing_tags (buildExistingTags resp) = []
  · left
    unfold check_and_add_tags_run
    rw [hread]
    simp [hnil]
  · right
    exact run_writes_of_missing client arn resp hread hnil

/-- Claim C1: for every resource whose current tag mapping is missing one or more
keys of `REQUIRED_TAGS`, `check_and_add_tags` issues exactly one
`tag_resources` write call, whose tag mapping contains exactly the missing
keys paired with their `REQUIRED_TAGS` values and nothing else. -/
theorem check_and_add_tags_writes_exactly_missing
    (client : TagClient) (arn : String) (resp : Option (List ResourceTagMapping))
    (hread : client.get_resources_arn arn = Except.ok resp)
    (hmiss : ∃ kv ∈ REQUIRED_TAGS, containsKey (buildExistingTags resp) kv.1 = false) :
    (check_and_add_tags_run client arn).2 =
      [(arn, dictOfPairs (missing_tags (buildExistingTags resp)))] ∧
    (∀ k v, (k, v) ∈ dictOfPairs (missing_tags (buildExistingTags resp)) ↔
      ((k, v) ∈ REQUIRED_TAGS ∧ containsKey (buildExistingTags resp) k = false)) := by
  obtain ⟨kv, hkv, hk⟩ := hmiss
  have hne : missing_tags (buildExistingTags resp) ≠ [] := by
    intro hnil
    have h2 := (missing_tags_eq_nil_iff _).1 hnil kv hkv
    rw [h2] at hk
    exact Bool.noConfusion hk
  refine ⟨run_writes_of_missing client arn resp hread hne, ?_⟩
  intro k v
  rw [dictOfPairs_missing_tags]
  exact mem_missing_tags _ (k, v)

theorem check_and_add_tags_writes_exactly_missing_witness :
    (clientC1.get_resources_arn "arn:demo:r1" = Except.ok respC1) ∧
    (∃ kv ∈ REQUIRED_TAGS, containsKey (buildExistingTags respC1) kv.1 = false) ∧
    ((check_and_add_tags_run clientC1 "arn:demo:r1").2 =
        [("arn:demo:r1", dictOfPairs (missing_tags (buildExistingTags respC1)))] ∧
      (∀ k v, (k, v) ∈ dictOfPairs (missing_tags (buildExistingTags respC1)) ↔
        ((k, v) ∈ REQUIRED_TAGS ∧ containsKey (buildExistingTags respC1) k = false))) :=
  ⟨rfl, ⟨("Owner", "CloudEng"), by decide, by decide⟩,
    check_and_add_tags_writes_exactly_missing clientC1 "arn:demo:r1" respC1 rfl
      ⟨("Owner", "CloudEng"), by decide, by decide⟩⟩

/-- Claim C2: for every resource whose current tag mapping already contains every
key of `REQUIRED_TAGS`, `check_and_add_tags` issues no write call. -/
theorem check_and_add_tags_no_write_when_complete
    (client : TagClient) (arn : String) (resp : Option (List ResourceTagMapping))
    (hread : client.get_resources_arn arn = Except.ok resp)
    (hall : ∀ kv ∈ REQUIRED_TAGS, containsKey (buildExistingTags resp) kv.1 = true) :
    (check_and_add_tags_run client arn).2 = [] ∧
    (check_and_add_tags_run client arn).1 = .ok .alreadyTagged := by
  have hnil : missing_tags (buildExistingTags resp) = [] :=
    (missing_tags_eq_nil_iff _).2 hall
  unfold check_and_add_tags_run
  rw [hread]
  simp [hnil]

theorem check_and_add_tags_no_write_when_complete_witness :
    (clientC2.get_resources_arn "arn:demo:r2" = Except.ok respC2) ∧
    (∀ kv ∈ REQUIRED_TAGS, containsKey (buildExistingTags respC2) kv.1 = true) ∧
    ((check_and_add_tags_run clientC2 "arn:demo:r2").2 = [] ∧
      (check_and_add_tags_run clientC2 "arn:demo:r2").1 = .ok .alreadyTagged) :=
  ⟨rfl, by decide,
    check_and_add_tags_no_write_when_complete clientC2 "arn:demo:r2" respC2 rfl (by decide)⟩

/-- Claim C3: the write request never contains a key that is already present on the
resource, and every already-present key keeps its value after the write is
applied — even when that value differs from the one `REQUIRED_TAGS` assigns. -/
theorem check_and_add_tags_additive_only
    (client : TagClient) (arn : String) (resp : Option (List ResourceTagMapping))
    (hread : client.get_resources_arn arn = Except.ok resp)
    (arnw : String) (w : List (String × String))
    (hw : (arnw, w) ∈ (check_and_add_tags_run client arn).2)
    (k : String) (hk : containsKey (buildExistingTags resp) k = true) :
    containsKey w k = false ∧
    lookupKey (applyWrite (buildExistingTags resp) w) k
      = lookupKey (buildExistingTags resp) k := by
  have hwe : w = dictOfPairs (missing_tags (buildExistingTags resp)) := by
    rcases run_writes_cases client arn resp hread with hcase | hcase
    · rw [hcase] at hw
      exact absurd hw (List.not_mem_nil _)
    · rw [hcase] at hw
      have := List.mem_singleton.1 hw
      exact (Prod.mk.injEq _ _ _ _ ▸ this).2
  have hcw : containsKey (missing_tags (buildExistingTags resp)) k = false := by
    cases hcase : containsKey (missing_tags (buildExistingTags resp)) k with
    | false => rfl
    | true =>
      have h2 := mem_keys_missing_tags _ k hcase
      rw [h2] at hk
      exact Bool.noConfusion hk
  have hnk : ∀ p ∈ w, p.1 ≠ k := by
    intro p hp hpk
    have h1 : containsKey w p.1 = true := containsKey_of_mem w p hp
    rw [hwe, containsKey_dictOfPairs] at h1
    have h2 := mem_keys_missing_tags _ _ h1
    rw [hpk] at h2
    rw [h2] at hk
    exact Bool.noConfusion hk
  constructor
  · rw [hwe, containsKey_dictOfPairs]
    exact hcw
  · exact lookupKey_applyWrite_ne w _ k hnk

theorem check_and_add_tags_additive_only_witness :
    (clientC3.get_resources_arn "arn:demo:r3" = Except.ok respC3) ∧
    (("arn:demo:r3", [("Owner", "CloudEng")]) ∈
      (check_and_add_tags_run clientC3 "arn:demo:r3").2) ∧
    (containsKey (buildExistingTags respC3) "Environment" = true) ∧
    (containsKey [("Owner", "CloudEng")] "Environment" = false ∧
      lookupKey (applyWrite (buildExistingTags respC3) [("Owner", "CloudEng")]) "Environment"
        = lookupKey (buildExistingTags respC3) "Environment") :=
  ⟨rfl, by decide, by decide,
    check_and_add_tags_additive_only clientC3 "arn:demo:r3" respC3 rfl
      "arn:demo:r3" [("Owner", "CloudEng")] (by decide) "Environment" (by decide)⟩

/-- Claim C9: when `check_and_add_tags` completes without error, the resource's
resulting tag mapping (its prior tags plus the issued writes) contains every
key of `REQUIRED_TAGS`. -/
theorem check_and_add_tags_result_superset
    (client : TagClient) (arn : String) (resp : Option (List ResourceTagMapping))
    (hread : client.get_resources_arn arn = Except.ok resp)
    (o : Outcome) (hok : (check_and_add_tags_run client arn).1 = .ok o) :
    ∀ kv ∈ REQUIRED_TAGS,
      containsKey
        (finalTags (buildExistingTags resp) (check_and_add_tags_run client arn).2)
        kv.1 = true := by
  intro kv hkv
  by_cases hnil : missing_tags (buildExistingTags resp) = []
  · have hall := (missing_tags_eq_nil_iff _).1 hnil
    have hw : (check_and_add_tags_run client arn).2 = [] := by
      unfold check_and_add_tags_run
      rw [hread]
      simp [hnil]
    rw [hw]
    simpa [finalTags] using hall kv hkv
  · have hw := run_writes_of_missing client arn resp hread hnil
    rw [hw]
    simp only [finalTags, List.foldl_cons, List.foldl_nil]
    rw [containsKey_applyWrite, containsKey_dictOfPairs]
    cases hE : containsKey (buildExistingTags resp) kv.1 with
    | true => rfl
    | false =>
      have hmem : kv ∈ missing_tags (buildExistingTags resp) :=
        (mem_missing_tags _ kv).2 ⟨hkv, hE⟩
      simp [containsKey_of_mem _ kv hmem]

theorem check_and_add_tags_result_superset_witness :
    (clientC1.get_resources_arn "arn:demo:r1" = Except.ok respC1) ∧
    ((check_and_add_tags_run clientC1 "arn:demo:r1").1
      = .ok (.added [("Owner", "CloudEng")])) ∧
    (containsKey
        (finalTags (buildExistingTags respC1) (check_and_add_tags_run clientC1 "arn:demo:r1").2)
        "Environment" = true ∧
      containsKey
        (finalTags (buildExistingTags respC1) (check_and_add_tags_run clientC1 "arn:demo:r1").2)
        "Owner" = true) :=
  ⟨rfl, by decide,
    check_and_add_tags_result_superset clientC1 "arn:demo:r1" respC1 rfl
      (.added [("Owner", "CloudEng")]) (by decide) ("Environment", "Production") (by decide),
    check_and_add_tags_result_superset clientC1 "arn:demo:r1" respC1 rfl
      (.added [("Owner", "CloudEng")]) (by decide) ("Owner", "CloudEng") (by decide)⟩

/-- Claim C10: tag reconciliation is idempotent — on the tag mapping that results
from a successful first run (`T` extended with the entries written for `T`),
a second run computes an empty missing-tag list and issues no write call. -/
theorem check_and_add_tags_idempotent
    (T : List (String × String)) (client : TagClient) (arn : String)
    (resp : Option (List ResourceTagMapping))
    (hread : client.get_resources_arn arn = Except.ok resp)
    (hstate : buildExistingTags resp = applyWrite T (dictOfPairs (missing_tags T))) :
    missing_tags (buildExistingTags resp) = [] ∧
    (check_and_add_tags_run client arn).2 = [] ∧
    (check_and_add_tags_run client arn).1 = .ok .alreadyTagged := by
  have hall : ∀ kv ∈ REQUIRED_TAGS, containsKey (buildExistingTags resp) kv.1 = true := by
    intro kv hkv
    rw [hstate, containsKey_applyWrite, containsKey_dictOfPairs]
    cases hT : containsKey T kv.1 with
    | true => rfl
    | false =>
      have hmem : kv ∈ missing_tags T := (mem_missing_tags T kv).2 ⟨hkv, hT⟩
      simp [containsKey_of_mem _ kv hmem]
  have hnil := (missing_tags_eq_nil_iff _).2 hall
  refine ⟨hnil, ?_, ?_⟩ <;>
  · unfold check_and_add_tags_run
    rw [hread]
    simp [hnil]

theorem check_and_add_tags_idempotent_witness :
    (clientC10.get_resources_arn "arn:demo:r10" = Except.ok respC10) ∧
    (buildExistingTags respC10 = applyWrite [] (dictOfPairs (missing_tags []))) ∧
    (missing_tags (buildExistingTags respC10) = [] ∧
      (check_and_add_tags_run clientC10 "arn:demo:r10").2 = [] ∧
      (check_and_add_tags_run clientC10 "arn:demo:r10").1 = .ok .alreadyTagged) :=
  ⟨rfl, by decide,
    check_and_add_tags_idempotent [] clientC10 "arn:demo:r10" respC10 rfl (by decide)⟩

/-- Claim C4, refuted: the listing performed by `get_resources_with_tags` does not
depend on the `service_name` argument at all — the paginator request carries
no service filter, so every service of `TAGGABLE_SERVICES` receives the same
full resource list.  Concretely, the listing "for ec2" also returns an s3
bucket. -/
theorem get_resources_with_tags_ignores_service_name :
    (∀ (client : TagClient) (s1 s2 : String),
      get_resources_with_tags client s1 = get_resources_with_tags client s2) ∧
    get_resources_with_tags clientC4 "ec2" = get_resources_with_tags clientC4 "s3" ∧
    get_resources_with_tags clientC4 "ec2" =
      [{ ResourceARN := "arn:aws:ec2:us-east-1:123456789012:instance/i-0abc", Tags? := some [] },
       { ResourceARN := "arn:aws:s3:::demo-bucket", Tags? := some [] }] :=
  ⟨fun _ _ _ => rfl, rfl, by decide⟩

/-- Claim C5: a tag read/write failure for one resource is caught inside
`check_and_add_tags` (surfacing as `errorLogged`), and the resource loop
still runs `check_and_add_tags` on every resource of the pass. -/
theorem resource_loop_isolates_failures
    (client : TagClient) (resources : List ResourceTagMapping)
    (j : Nat) (hj : j < resources.length) (e : String)
    (herr : (check_and_add_tags_run client (resources.get ⟨j, hj⟩).ResourceARN).1
      = .errorLogged e) :
    (process_service_resources client resources).length = resources.length ∧
    ∀ (i : Nat) (hi : i < resources.length)
      (hi2 : i < (process_service_resources client resources).length),
      (process_service_resources client resources).get ⟨i, hi2⟩
        = check_and_add_tags_run client (resources.get ⟨i, hi⟩).ResourceARN := by
  constructor
  · simp [process_service_resources]
  · intro i hi hi2
    simp [process_service_resources, List.get_eq_getElem, List.getElem_map]

theorem resource_loop_isolates_failures_witness :
    ((check_and_add_tags_run clientC5 (resourcesC5.get ⟨0, by decide⟩).ResourceARN).1
      = .errorLogged "AccessDenied") ∧
    ((process_service_resources clientC5 resourcesC5).length = resourcesC5.length ∧
      (process_service_resources clientC5 resourcesC5).get ⟨1, by decide⟩
        = check_and_add_tags_run clientC5 (resourcesC5.get ⟨1, by decide⟩).ResourceARN) :=
  ⟨by decide,
    (resource_loop_isolates_failures clientC5 resourcesC5 0 (by decide) "AccessDenied"
      (by decide)).1,
    (resource_loop_isolates_failures clientC5 resourcesC5 0 (by decide) "AccessDenied"
      (by decide)).2 1 (by decide) (by decide)⟩

/-- Claim C6: a resource-listing failure is caught inside
`get_resources_with_tags`, which returns `[]`, and the service loop of
`process_aws_profile` still produces a result for every service of
`TAGGABLE_SERVICES`. -/
theorem service_loop_isolates_listing_failures
    (client : TagClient) (e : String)
    (herr : client.paginate_get_resources = .error e) :
    (∀ s : String, get_resources_with_tags client s = []) ∧
    process_profile_services client = TAGGABLE_SERVICES.map (fun s => (s, [])) := by
  have hempty : ∀ s : String, get_resources_with_tags client s = [] := by
    intro s
    unfold get_resources_with_tags
    rw [herr]
  refine ⟨hempty, ?_⟩
  unfold process_profile_services
  have hfun : (fun service => (service,
      process_service_resources client (get_resources_with_tags client service)))
      = (fun s => ((s : String), ([] : List (LoggedOutcome × List WriteCall)))) := by
    funext s
    rw [hempty s]
    rfl
  rw [hfun]

theorem service_loop_isolates_listing_failures_witness :
    (clientC6.paginate_get_resources = .error "Throttling") ∧
    (get_resources_with_tags clientC6 "ec2" = [] ∧
      process_profile_services clientC6 = TAGGABLE_SERVICES.map (fun s => (s, []))) :=
  ⟨rfl,
    (service_loop_isolates_listing_failures clientC6 "Throttling" rfl).1 "ec2",
    (service_loop_isolates_listing_failures clientC6 "Throttling" rfl).2⟩

/-- Claim C7: a failure to open one profile (not found, missing credentials, or any
other session error) is caught and logged by `process_aws_profile`, and the
main loop still runs `process_aws_profile` on every profile of the list. -/
theorem profile_loop_isolates_profile_failures
    (env : Env) (profiles : List String)
    (j : Nat) (hj : j < profiles.length) (se : SessionError)
    (herr : env.getClient (profiles.get ⟨j, hj⟩) = .error se) :
    process_aws_profile env (profiles.get ⟨j, hj⟩) = loggedOutcomeOfSessionError se ∧
    main_run env profiles = .ran (profiles.map (process_aws_profile env)) ∧
    ∀ (i : Nat) (hi : i < profiles.length)
      (hi2 : i < (profiles.map (process_aws_profile env)).length),
      (profiles.map (process_aws_profile env)).get ⟨i, hi2⟩
        = process_aws_profile env (profiles.get ⟨i, hi⟩) := by
  refine ⟨?_, ?_, ?_⟩
  · unfold process_aws_profile
    rw [herr]
    cases se <;> rfl
  · unfold main_run
    have hne : profiles.isEmpty = false :=
      List.isEmpty_eq_false.2 (List.ne_nil_of_length_pos (Nat.lt_of_le_of_lt (Nat.zero_le j) hj))
    rw [hne]
    rfl
  · intro i hi hi2
    simp [List.get_eq_getElem, List.getElem_map]

theorem profile_loop_isolates_profile_failures_witness :
    (envC7.getClient (profilesC7.get ⟨0, by decide⟩) = .error SessionError.profileNotFound) ∧
    (process_aws_profile envC7 (profilesC7.get ⟨0, by decide⟩) = .profileNotFoundLogged ∧
      main_run envC7 profilesC7 = .ran (profilesC7.map (process_aws_profile envC7)) ∧
      (profilesC7.map (process_aws_profile envC7)).get ⟨1, by decide⟩
        = process_aws_profile envC7 (profilesC7.get ⟨1, by decide⟩)) :=
  ⟨rfl,
    (profile_loop_isolates_profile_failures envC7 profilesC7 0 (by decide)
      SessionError.profileNotFound rfl).1,
    (profile_loop_isolates_profile_failures envC7 profilesC7 0 (by decide)
      SessionError.profileNotFound rfl).2.1,
    (profile_loop_isolates_profile_failures envC7 profilesC7 0 (by decide)
      SessionError.profileNotFound rfl).2.2 1 (by decide) (by decide)⟩

/-- Claim C8: the top-level run always completes normally — for every environment
(however many profile, service, or resource failures it produces) and every
profile list, `main_run` returns a `MainResult` with one outcome per
profile; no error propagates out of the main loop. -/
theorem main_run_always_completes (env : Env) (profiles : List String) :
    (profiles = [] ∧ main_run env profiles = .noProfilesFound) ∨
    (∃ outcomes : List ProfileOutcome,
      main_run env profiles = .ran outcomes ∧ outcomes.length = profiles.length) := by
  cases profiles with
  | nil => exact Or.inl ⟨rfl, rfl⟩
  | cons p ps =>
    refine Or.inr ⟨(p :: ps).map (process_aws_profile env), ?_, by simp⟩
    unfold main_run
    rfl

end CheckAddTag
